import Mathlib

/-!
Verification of the jupyter-chatbot extension core (src/src/extension.ts):
the provider-abstracted LLM query dispatcher with session persistence.

Shallow embedding conventions:
* JavaScript strings are modelled as Lean `String` (`substring(0, 30)` becomes
  `String.take 30`, `.length` becomes `String.length`).
* `uuidv4()` is modelled by a fresh-id counter carried in the store state:
  session ids are `Nat` and `nextId` plays the role of the uuid generator's
  freshness guarantee (a freshly generated id differs from every existing id).
* HTTP calls are modelled by passing the outcome of the network transaction
  (`Except` for transport failure vs. a parsed JSON payload) as an argument;
  optional / absent JSON fields are `Option`.  Functions additionally report
  how many network requests they issued, so that "fails before any network
  request" is expressible.
* Thrown JS exceptions become `Except.error`; a caught exception that the code
  converts to a returned string stays in the `Except.ok` branch.
-/

deriving instance DecidableEq for Except

namespace JupyterChatbot

/-- A chat message: `{ text: string, isUser: boolean }` (extension.ts line 8). -/
structure Message where
  text : String
  isUser : Bool
deriving Repr, DecidableEq

/-- `ChatSession` (extension.ts lines 5-9); `id` is modelled as `Nat`
(see the fresh-id convention above). -/
structure ChatSession where
  id : Nat
  title : String
  messages : List Message
deriving Repr, DecidableEq

/-- `LLMConfig` (extension.ts lines 11-15). -/
structure LLMConfig where
  provider : String
  model : String
  universityApiUrl : String
deriving Repr, DecidableEq

/-! ## LLM Provider Client -/

/-- The combined prompt built by `getResponse` (extension.ts line 66):
`` `Notebook Context:\n${context}\n\nQuestion: ${prompt}\nAnswer:` ``. -/
def fullPrompt (prompt ctx : String) : String :=
  "Notebook Context:\n" ++ ctx ++ "\n\nQuestion: " ++ prompt ++ "\nAnswer:"

/-- The combined prompt as the spec describes it, for comparison with
`fullPrompt`.  Modelled from the spec words: "context block, blank line,
\"Question: \"+prompt, blank line, \"Answer:\" cue" — i.e. with a blank line
(two newlines) between the question and the answer cue. -/
def specCombinedPrompt (prompt ctx : String) : String :=
  "Notebook Context:\n" ++ ctx ++ "\n\n" ++ ("Question: " ++ prompt) ++ "\n\n" ++ "Answer:"

/-- JSON payload of the local generate endpoint; the `response` field may be
absent (`none`). -/
structure OllamaResponse where
  response : Option String
deriving Repr, DecidableEq

/-- JavaScript `v || dflt` on an optional string field: `undefined` and the
empty string are falsy. -/
def jsStringOr (v : Option String) (dflt : String) : String :=
  match v with
  | some s => if s = "" then dflt else s
  | none => dflt

/-- `LLMService.queryOllama` (extension.ts lines 88-104).  The argument is the
outcome of the `axios.post` transaction: `Except.error e` is a transport
failure (rethrown as a descriptive error), `Except.ok data` the parsed JSON
body.  Line 99: `return response.data.response || "No response from model"`. -/
def queryOllama (outcome : Except String OllamaResponse) : Except String String :=
  match outcome with
  | .ok data => .ok (jsStringOr data.response "No response from model")
  | .error e => .error ("Ollama API error: " ++ e)

/-- `message` object inside a chat-completions choice. -/
structure UniMessage where
  content : String
deriving Repr, DecidableEq

/-- One element of the `choices` array; its `message` field may be absent. -/
structure UniChoice where
  message : Option UniMessage
deriving Repr, DecidableEq

/-- Parsed JSON body of the remote chat endpoint; the `choices` array may be
absent (`none`). -/
structure UniResponse where
  choices : Option (List UniChoice)
deriving Repr, DecidableEq

/-- Outcome of the remote chat `axios.post`: success with a parsed body, or an
axios error carrying an optional HTTP status and optional server error detail
(extension.ts lines 138-143). -/
inductive UniNetOutcome where
  | success (resp : UniResponse)
  | failure (status : Option Nat) (detail : Option String)
deriving Repr, DecidableEq

/-- Result of a query together with the number of network requests it issued. -/
structure QueryResult where
  result : Except String String
  requestsSent : Nat
deriving Repr, DecidableEq

/-- The distinguished missing-credential error thrown by
`queryUniversityServer` (extension.ts line 110). -/
def missingCredentialError : String :=
  "University API key not configured. Use \"Set University API Key\" command"

/-- The fixed string returned on a shape mismatch of the remote chat response
(extension.ts line 134). -/
def unexpectedFormatError : String :=
  "Error: Unexpected response format from university server"

/-- Renders the axios error details of extension.ts lines 139-141:
`` `Status: ${status || 'Unknown'}` `` plus ``\` | ${detail}\``` when present. -/
def uniErrorDetails (status : Option Nat) (detail : Option String) : String :=
  "Status: " ++ (match status with | some n => toString n | none => "Unknown") ++
    (match detail with | some d => " | " ++ d | none => "")

/-- `LLMService.queryUniversityServer` (extension.ts lines 106-147).
The credential read `secrets.get('universityApiKey')` is the `apiKey`
argument; `net` is the outcome of the `axios.post` transaction, which is only
consulted (a request only issued) after the credential check on lines 109-111.
Lines 130-135: the first choice's message content is returned when
`response.data.choices && response.data.choices[0] &&
response.data.choices[0].message` holds, otherwise the fixed
"unexpected response format" string is returned (not thrown). -/
def queryUniversityServer (apiKey : Option String) (net : UniNetOutcome) : QueryResult :=
  match apiKey with
  | none => ⟨.error missingCredentialError, 0⟩
  | some _ =>
    match net with
    | .success data =>
      match data.choices with
      | some (c :: _) =>
        match c.message with
        | some m => ⟨.ok m.content, 1⟩
        | none => ⟨.ok unexpectedFormatError, 1⟩
      | some [] => ⟨.ok unexpectedFormatError, 1⟩
      | none => ⟨.ok unexpectedFormatError, 1⟩
    | .failure status detail =>
      ⟨.error ("University API error: " ++ uniErrorDetails status detail), 1⟩

/-! ## Model Catalog Resolver -/

/-- One record of the remote `/api/models` listing: `{id}`. -/
structure UniModelRecord where
  id : String
deriving Repr, DecidableEq

/-- Parsed body of the remote models endpoint; `data` is `none` when the field
is absent or not an array (the `Array.isArray` check on line 46). -/
structure UniModelsPayload where
  data : Option (List UniModelRecord)
deriving Repr, DecidableEq

/-- One record of the local `/api/tags` listing: `{name}`. -/
structure OllamaModelRecord where
  name : String
deriving Repr, DecidableEq

/-- Parsed body of the local tags endpoint; `models` is `none` when the field
is absent (then line 57 `response.data.models.map` throws a TypeError, which
the surrounding `catch` turns into `[]`). -/
structure TagsPayload where
  models : Option (List OllamaModelRecord)
deriving Repr, DecidableEq

/-- Outcomes of the network transactions a dispatcher call may perform. -/
structure Net where
  uniModels : Except String UniModelsPayload
  ollamaTags : Except String TagsPayload
  uniChat : UniNetOutcome
  ollamaGenerate : Except String OllamaResponse
deriving Repr, DecidableEq

/-- `LLMService.getAvailableModels` (extension.ts lines 33-62), returning the
model list together with the number of network requests issued.  For the
remote provider an absent credential short-circuits to `[]` with no request
(line 37); every transport or shape failure yields `[]` (lines 49-52, 58-60). -/
def getAvailableModels (config : LLMConfig) (apiKey : Option String) (net : Net) :
    List String × Nat :=
  if config.provider = "university-server" then
    match apiKey with
    | none => ([], 0)
    | some _ =>
      match net.uniModels with
      | .ok payload =>
        match payload.data with
        | some records => (records.map (fun m => m.id), 1)
        | none => ([], 1)
      | .error _ => ([], 1)
  else
    match net.ollamaTags with
    | .ok payload =>
      match payload.models with
      | some records => (records.map (fun m => m.name), 1)
      | none => ([], 1)
    | .error _ => ([], 1)

/-- A network or parse failure of the models fetch for the branch the
configured provider selects. -/
def modelsFetchFails (config : LLMConfig) (net : Net) : Prop :=
  if config.provider = "university-server" then
    (∃ e, net.uniModels = .error e) ∨ (∃ p, net.uniModels = .ok p ∧ p.data = none)
  else
    (∃ e, net.ollamaTags = .error e) ∨ (∃ p, net.ollamaTags = .ok p ∧ p.models = none)

/-- `LLMService.getResponse` (extension.ts lines 64-86): builds the combined
prompt, validates the configured model against the catalog when a remote
credential is present (lines 68-76), then dispatches by provider.  Request
counts accumulate over the catalog fetch and the query itself. -/
def getResponse (config : LLMConfig) (apiKey : Option String) (net : Net) : QueryResult :=
  if config.provider = "university-server" then
    match apiKey with
    | some _ =>
      let fetched := getAvailableModels config apiKey net
      if config.model ∈ fetched.1 then
        let q := queryUniversityServer apiKey net.uniChat
        ⟨q.result, fetched.2 + q.requestsSent⟩
      else
        ⟨.error ("Model " ++ config.model ++ " not available on server"), fetched.2⟩
    | none =>
      let q := queryUniversityServer none net.uniChat
      ⟨q.result, q.requestsSent⟩
  else if config.provider = "ollama" then
    ⟨queryOllama net.ollamaGenerate, 1⟩
  else
    ⟨.error ("Unsupported provider: " ++ config.provider), 0⟩

/-! ## Session Store -/

/-- The session-store state of `ChatbotViewProvider` (extension.ts lines
155-156): the ordered session list and the current-session back-reference.
`nextId` is the fresh-id counter standing in for `uuidv4()`. -/
structure Store where
  sessions : List ChatSession
  currentSessionId : Option Nat
  nextId : Nat
deriving Repr, DecidableEq

/-- `ChatbotViewProvider.createNewChat` (extension.ts lines 215-227): a new
empty session titled "New Chat" with a fresh id is `unshift`ed to the front of
the list and made current. -/
def createNewChat (st : Store) : Store :=
  { sessions := ⟨st.nextId, "New Chat", []⟩ :: st.sessions
    currentSessionId := some st.nextId
    nextId := st.nextId + 1 }

/-- Removal of the first session whose id matches: this is what
`findIndex` followed by `splice(sessionIndex, 1)` does on extension.ts
lines 230-233 when the index is found. -/
def removeFirstById (sessions : List ChatSession) (sid : Nat) : List ChatSession :=
  match sessions with
  | [] => []
  | s :: rest => if s.id = sid then rest else s :: removeFirstById rest sid

/-- `ChatbotViewProvider.deleteChat` (extension.ts lines 229-241).  When
`findIndex` returns -1 (no session has the id, i.e. `any` is false) the call
returns with no change; otherwise the session is removed and, when it was
current, the first remaining session (or none) becomes current. -/
def deleteChat (st : Store) (sessionId : Nat) : Store :=
  if st.sessions.any (fun s => s.id == sessionId) then
    { st with
      sessions := removeFirstById st.sessions sessionId,
      currentSessionId :=
        if st.currentSessionId = some sessionId then
          match removeFirstById st.sessions sessionId with
          | [] => none
          | s :: _ => some s.id
        else st.currentSessionId }
  else st

/-- The `_currentSession` getter (extension.ts lines 211-213):
`sessions.find(session => session.id === currentSessionId)`. -/
def currentSession (st : Store) : Option ChatSession :=
  match st.currentSessionId with
  | none => none
  | some cid => st.sessions.find? (fun s => s.id == cid)

/-- `switchSession` handler (extension.ts lines 331-334): sets the
current-session id and touches nothing else of the store. -/
def switchSession (st : Store) (sid : Nat) : Store :=
  { st with currentSessionId := some sid }

/-- The user-message push and title derivation of the `submit` handler
(extension.ts lines 299-304): the message is appended; when it is now the only
message, the title becomes `text.substring(0, 30)` plus `"..."` exactly when
`text.length > 30`. -/
def pushMessageTitle (s : ChatSession) (text : String) : ChatSession :=
  let messages := s.messages ++ [⟨text, true⟩]
  let title :=
    if messages.length = 1 then
      text.take 30 ++ (if 30 < text.length then "..." else "")
    else s.title
  { s with messages := messages, title := title }

/-- Mutation of the session object found by `find`: the first session in the
list with the given id is replaced by `f` of it; all others are untouched. -/
def updateFirstById (sessions : List ChatSession) (cid : Nat)
    (f : ChatSession → ChatSession) : List ChatSession :=
  match sessions with
  | [] => []
  | s :: rest => if s.id = cid then f s :: rest else s :: updateFirstById rest cid f

/-- The pre-await half of the `submit` handler (extension.ts lines 296-307):
the user message is pushed (with title derivation) onto the captured current
session. -/
def submitUserStep (st : Store) (cid : Nat) (text : String) : Store :=
  { st with
    sessions := updateFirstById st.sessions cid (fun s => pushMessageTitle s text) }

/-- Push of a non-user message onto a session (`session.messages.push({ text:
response, isUser: false })`, extension.ts lines 312 and 317). -/
def appendBotMessage (response : String) (s : ChatSession) : ChatSession :=
  { s with messages := s.messages ++ [⟨response, false⟩] }

/-- The post-await half of the `submit` handler (extension.ts lines 312 and
317): the response (or error message) is pushed onto the captured session
object. -/
def appendResponseStep (st : Store) (cid : Nat) (response : String) : Store :=
  { st with
    sessions := updateFirstById st.sessions cid (appendBotMessage response) }

/-- The `submit` handler with interleaved `switchSession` commands
(extension.ts lines 293-321, 331-334).  The current session object is captured
before the await (line 296); after the interleaved switches the response (or
the error message) is pushed onto that same captured object (lines 312, 317),
modelled as an update of the session holding the captured id — switches do not
alter the session list, so the captured object is still that list entry. -/
def submitWithSwitches (st : Store) (text response : String)
    (switches : List Nat) : Store :=
  match currentSession st with
  | none => st
  | some sess =>
    appendResponseStep
      (switches.foldl switchSession (submitUserStep st sess.id text))
      sess.id response

/-! ## Persistence -/

/-- The host's durable key-value storage (`context.globalState`), restricted
to the value type this extension stores. -/
def GlobalState : Type := String → Option (List ChatSession)

/-- `globalState.update(key, value)`. -/
def globalStateUpdate (g : GlobalState) (key : String)
    (v : List ChatSession) : GlobalState :=
  fun k => if k = key then some v else g k

/-- `globalState.get(key, dflt)`. -/
def globalStateGet (g : GlobalState) (key : String)
    (dflt : List ChatSession) : List ChatSession :=
  (g key).getD dflt

/-- `ChatbotViewProvider._saveSessions` (extension.ts lines 207-209):
`globalState.update('chatSessions', this._sessions)`. -/
def saveSessions (g : GlobalState) (sessions : List ChatSession) : GlobalState :=
  globalStateUpdate g "chatSessions" sessions

/-- The load in the constructor (extension.ts line 164):
`globalState.get<ChatSession[]>('chatSessions', [])`. -/
def loadSessions (g : GlobalState) : List ChatSession :=
  globalStateGet g "chatSessions" []

/-! ## Operation sequences and the store invariant -/

/-- The store operations the invariant claim ranges over. -/
inductive Op where
  | create
  | delete (sessionId : Nat)
deriving Repr, DecidableEq

/-- One operation applied to the store. -/
def applyOp (st : Store) : Op → Store
  | .create => createNewChat st
  | .delete sid => deleteChat st sid

/-- A sequence of operations applied left to right. -/
def applyOps (st : Store) (ops : List Op) : Store :=
  ops.foldl applyOp st

/-- The session-store invariant: all session ids are pairwise distinct, the
current id (when present) is the id of a listed session, and every id is below
the fresh-id counter. -/
def Store.Inv (st : Store) : Prop :=
  st.sessions.Pairwise (fun a b => a.id ≠ b.id) ∧
  (∀ cid, st.currentSessionId = some cid → ∃ s ∈ st.sessions, s.id = cid) ∧
  (∀ s ∈ st.sessions, s.id < st.nextId)

/-! ## Store lemmas -/

lemma removeFirstById_sublist (l : List ChatSession) (sid : Nat) :
    (removeFirstById l sid).Sublist l := by
  induction l with
  | nil => simp [removeFirstById]
  | cons s rest ih =>
    simp only [removeFirstById]
    split
    · exact List.sublist_cons_self s rest
    · exact ih.cons₂ s

lemma mem_removeFirstById_of_ne {l : List ChatSession} {sid : Nat} {s : ChatSession}
    (hs : s ∈ l) (hne : s.id ≠ sid) : s ∈ removeFirstById l sid := by
  induction l with
  | nil => simp at hs
  | cons a rest ih =>
    simp only [removeFirstById]
    rcases List.mem_cons.mp hs with rfl | hmem
    · rw [if_neg hne]
      exact List.mem_cons_self _ _
    · split
      · exact hmem
      · exact List.mem_cons_of_mem _ (ih hmem)

lemma inv_createNewChat {st : Store} (h : st.Inv) : (createNewChat st).Inv := by
  obtain ⟨hpw, -, hbound⟩ := h
  refine ⟨List.pairwise_cons.mpr ⟨fun b hb => ?_, hpw⟩, ?_, ?_⟩
  · exact fun hEq => absurd (hEq ▸ hbound b hb) (lt_irrefl _)
  · intro cid hc
    exact ⟨⟨st.nextId, "New Chat", []⟩, List.mem_cons_self _ _, Option.some.inj hc⟩
  · intro s hs
    rcases List.mem_cons.mp hs with rfl | hmem
    · exact Nat.lt_succ_self _
    · exact Nat.lt_succ_of_lt (hbound s hmem)

lemma inv_deleteChat {st : Store} (sid : Nat) (h : st.Inv) : (deleteChat st sid).Inv := by
  obtain ⟨hpw, hcur, hbound⟩ := h
  unfold deleteChat
  split
  · refine ⟨List.Pairwise.sublist (removeFirstById_sublist _ _) hpw, ?_, ?_⟩
    · intro cid hc2
      dsimp only at hc2 ⊢
      by_cases hc : st.currentSessionId = some sid
      · rw [if_pos hc] at hc2
        rcases hl : removeFirstById st.sessions sid with - | ⟨s, rest⟩
        · rw [hl] at hc2
          cases hc2
        · rw [hl] at hc2
          exact ⟨s, List.mem_cons_self _ _, Option.some.inj hc2⟩
      · rw [if_neg hc] at hc2
        obtain ⟨s, hsmem, hsid⟩ := hcur cid hc2
        refine ⟨s, mem_removeFirstById_of_ne hsmem ?_, hsid⟩
        intro hEq
        exact hc (by rw [hc2, ← hsid, hEq])
    · intro s hs
      exact hbound s ((removeFirstById_sublist _ _).subset hs)
  · exact ⟨hpw, hcur, hbound⟩

lemma inv_applyOp {st : Store} (op : Op) (h : st.Inv) : (applyOp st op).Inv := by
  cases op with
  | create => exact inv_createNewChat h
  | delete sid => exact inv_deleteChat sid h

lemma inv_applyOps {st : Store} (ops : List Op) (h : st.Inv) : (applyOps st ops).Inv := by
  induction ops generalizing st with
  | nil => exact h
  | cons op rest ih => exact ih (inv_applyOp op h)

/-! ## Claim theorems -/

/-- C1: for every sequence of `createSession` (`createNewChat`) and
`deleteSession` (`deleteChat`) operations applied to any session-store state
satisfying the store invariant, the resulting state has exactly one or zero
current sessions (the current reference is an `Option`, and when present it is
a single id), the current session id (when present) is the id of a session in
the session list, and every session in the list has a unique id. -/
theorem C1_session_store_invariants (st : Store) (ops : List Op) (h : st.Inv) :
    (((applyOps st ops).currentSessionId = none ∨
        ∃ cid, (applyOps st ops).currentSessionId = some cid) ∧
      (∀ cid, (applyOps st ops).currentSessionId = some cid →
        ∃ s ∈ (applyOps st ops).sessions, s.id = cid)) ∧
    (applyOps st ops).sessions.Pairwise (fun a b => a.id ≠ b.id) := by
  obtain ⟨hpw, hcur, -⟩ := inv_applyOps ops h
  refine ⟨⟨?_, ?_⟩, hpw⟩
  · cases hc : (applyOps st ops).currentSessionId with
    | none => exact Or.inl rfl
    | some cid => exact Or.inr ⟨cid, rfl⟩
  · exact hcur

/-- Witness for C1 at the empty initial store and a concrete operation
sequence. -/
theorem C1_session_store_invariants_witness :
    (Store.mk [] none 0).Inv ∧
    (applyOps ⟨[], none, 0⟩ [Op.create, Op.create, Op.delete 1]).sessions.Pairwise
      (fun a b => a.id ≠ b.id) := by
  have h0 : (Store.mk [] none 0).Inv :=
    ⟨List.Pairwise.nil, fun cid hc => Option.noConfusion hc,
      fun s hs => absurd hs (List.not_mem_nil s)⟩
  exact ⟨h0, (C1_session_store_invariants ⟨[], none, 0⟩
    [Op.create, Op.create, Op.delete 1] h0).2⟩

/-- C10: `deleteChat` applied to an id that is not the id of any listed
session leaves the whole store state unchanged (the `findIndex === -1` early
return on extension.ts line 231). -/
theorem C10_delete_absent_id_is_noop (st : Store) (sessionId : Nat)
    (h : ∀ s ∈ st.sessions, s.id ≠ sessionId) :
    deleteChat st sessionId = st := by
  have hany : st.sessions.any (fun s => s.id == sessionId) = false := by
    rw [List.any_eq_false]
    intro s hs
    simpa using h s hs
  simp [deleteChat, hany]

/-- Witness for C10 at a concrete store and absent id. -/
theorem C10_delete_absent_id_is_noop_witness :
    (∀ s ∈ (Store.mk [⟨0, "New Chat", []⟩] (some 0) 1).sessions, s.id ≠ 5) ∧
    deleteChat ⟨[⟨0, "New Chat", []⟩], some 0, 1⟩ 5 = ⟨[⟨0, "New Chat", []⟩], some 0, 1⟩ :=
  ⟨by decide, C10_delete_absent_id_is_noop ⟨[⟨0, "New Chat", []⟩], some 0, 1⟩ 5 (by decide)⟩

/-- C3: persisting the session list with `_saveSessions` and loading it back
with the constructor's `globalState.get('chatSessions', [])` reproduces the
same ordered list of sessions, each with the same title and ordered message
list: persist followed by load is the identity on the session list. -/
theorem C3_persist_load_roundtrip (g : GlobalState) (sessions : List ChatSession) :
    loadSessions (saveSessions g sessions) = sessions := by
  simp [loadSessions, saveSessions, globalStateGet, globalStateUpdate]

/-- C4: a local-provider query whose endpoint JSON carries `response: "hi"`
returns `"hi"`, and a query whose response is missing the `response` field
returns `"No response from model"` as an ordinary result, not an error. -/
theorem C4_local_query_response_handling :
    queryOllama (.ok ⟨some "hi"⟩) = .ok "hi" ∧
    ∀ data : OllamaResponse, data.response = none →
      queryOllama (.ok data) = .ok "No response from model" := by
  refine ⟨by decide, ?_⟩
  intro data h
  simp [queryOllama, jsStringOr, h]

/-- Witness for C4 at the concrete response with the field absent. -/
theorem C4_local_query_response_handling_witness :
    queryOllama (.ok ⟨none⟩) = .ok "No response from model" :=
  C4_local_query_response_handling.2 ⟨none⟩ rfl

/-- C5: a remote-provider query (`getResponse` with the university-server
provider) issued while no credential is stored fails with the distinguished
missing-credential error having issued zero network requests. -/
theorem C5_missing_credential_fails_before_network (config : LLMConfig) (net : Net)
    (h : config.provider = "university-server") :
    (getResponse config none net).result = .error missingCredentialError ∧
    (getResponse config none net).requestsSent = 0 := by
  simp [getResponse, h, queryUniversityServer]

/-- Witness for C5 at a concrete configuration and network oracle. -/
theorem C5_missing_credential_fails_before_network_witness :
    (getResponse ⟨"university-server", "m", "u"⟩ none
        ⟨.error "e", .error "e", .failure none none, .error "e"⟩).result =
      .error missingCredentialError ∧
    (getResponse ⟨"university-server", "m", "u"⟩ none
        ⟨.error "e", .error "e", .failure none none, .error "e"⟩).requestsSent = 0 :=
  C5_missing_credential_fails_before_network ⟨"university-server", "m", "u"⟩
    ⟨.error "e", .error "e", .failure none none, .error "e"⟩ rfl

/-- C6: a remote-provider query whose HTTP response body does not match the
expected chat shape — no `choices` array, no first choice, or a first choice
with no `message` — returns the fixed "unexpected response format" string as
an ordinary result (`Except.ok`), never a thrown error. -/
theorem C6_malformed_remote_response (apiKey : String) (resp : UniResponse)
    (h : resp.choices = none ∨ resp.choices = some [] ∨
      ∃ c rest, resp.choices = some (c :: rest) ∧ c.message = none) :
    (queryUniversityServer (some apiKey) (.success resp)).result =
      .ok unexpectedFormatError := by
  rcases h with h | h | ⟨c, rest, h, hm⟩
  · simp [queryUniversityServer, h]
  · simp [queryUniversityServer, h]
  · simp [queryUniversityServer, h, hm]

/-- Witness for C6 at a response without a `choices` array. -/
theorem C6_malformed_remote_response_witness :
    (queryUniversityServer (some "k") (.success ⟨none⟩)).result =
      .ok unexpectedFormatError :=
  C6_malformed_remote_response "k" ⟨none⟩ (Or.inl rfl)

/-- C7: the model catalog resolver returns the empty list on every network or
parse failure of the selected provider branch (it never throws: it is a total
function into `List String`), and for the remote provider with no stored
credential it returns the empty list immediately with zero network requests. -/
theorem C7_model_catalog_failures (config : LLMConfig) (apiKey : Option String)
    (net : Net) :
    (modelsFetchFails config net → (getAvailableModels config apiKey net).1 = []) ∧
    (config.provider = "university-server" → apiKey = none →
      getAvailableModels config apiKey net = ([], 0)) := by
  constructor
  · intro hfail
    unfold modelsFetchFails at hfail
    unfold getAvailableModels
    by_cases hp : config.provider = "university-server"
    · rw [if_pos hp] at hfail ⊢
      cases apiKey with
      | none => rfl
      | some k =>
        rcases hfail with ⟨e, he⟩ | ⟨p, hp2, hd⟩
        · simp [he]
        · simp [hp2, hd]
    · rw [if_neg hp] at hfail ⊢
      rcases hfail with ⟨e, he⟩ | ⟨p, hp2, hd⟩
      · simp [he]
      · simp [hp2, hd]
  · intro hp hk
    subst hk
    simp [getAvailableModels, hp]

/-- Witness for C7 at a failing local tags fetch. -/
theorem C7_model_catalog_failures_witness :
    modelsFetchFails ⟨"ollama", "m", "u"⟩
      ⟨.error "e", .error "down", .failure none none, .error "e"⟩ ∧
    (getAvailableModels ⟨"ollama", "m", "u"⟩ (some "k")
      ⟨.error "e", .error "down", .failure none none, .error "e"⟩).1 = [] := by
  have hf : modelsFetchFails ⟨"ollama", "m", "u"⟩
      ⟨.error "e", .error "down", .failure none none, .error "e"⟩ := by
    unfold modelsFetchFails
    rw [if_neg (by decide)]
    exact Or.inl ⟨"down", rfl⟩
  exact ⟨hf, (C7_model_catalog_failures ⟨"ollama", "m", "u"⟩ (some "k")
    ⟨.error "e", .error "down", .failure none none, .error "e"⟩).1 hf⟩

/-- C8 counterexample: the prompt the code builds is not the prompt the claim
describes — the code puts a single newline, not a blank line, between the
question and the `Answer:` cue. -/
theorem C8_counterexample : fullPrompt "q" "c" ≠ specCombinedPrompt "q" "c" := by
  decide

/-- C8 amended: for every prompt `p` and context `c`, the combined prompt is
the context block, then a blank line, then `"Question: "` followed by `p`,
then a single newline (not a blank line), then the `"Answer:"` cue. -/
theorem C8_amended_prompt_shape (prompt ctx : String) :
    fullPrompt prompt ctx =
      "Notebook Context:\n" ++ ctx ++ "\n\n" ++ ("Question: " ++ prompt) ++
        "\n" ++ "Answer:" := by
  have h1 : ("\n\n" : String) ++ "Question: " = "\n\nQuestion: " := rfl
  have h2 : ("\n" : String) ++ "Answer:" = "\nAnswer:" := rfl
  simp only [fullPrompt, String.append_assoc, ← h1, ← h2]

set_option maxRecDepth 4096 in
/-- C2 counterexample: appending a concrete 45-character message as the first
user message of an empty session yields the title of its first 30 characters
followed by `"..."` (three ASCII dots, extension.ts line 303), not by the
single ellipsis character `"…"` the claim states. -/
theorem C2_counterexample :
    (pushMessageTitle ⟨0, "New Chat", []⟩
        "abcdefghijklmnopqrstuvwxyz0123456789ABCDEFGHI").title ≠
      "abcdefghijklmnopqrstuvwxyz0123…" := by
  decide

/-- C2 amended: the first user message `m` appended to an empty session sets
the session's title to the first 30 characters of `m`, with the three-dot
suffix `"..."` appended exactly when `m` is longer than 30 characters. -/
theorem C2_amended_title_derivation (s : ChatSession) (m : String)
    (h : s.messages = []) :
    (pushMessageTitle s m).title =
      m.take 30 ++ (if 30 < m.length then "..." else "") := by
  simp [pushMessageTitle, h]

/-- Witness for the amended C2 at the 45-character message. -/
theorem C2_amended_title_derivation_witness :
    (ChatSession.mk 0 "New Chat" []).messages = [] ∧
    (pushMessageTitle ⟨0, "New Chat", []⟩
        "abcdefghijklmnopqrstuvwxyz0123456789ABCDEFGHI").title =
      "abcdefghijklmnopqrstuvwxyz0123456789ABCDEFGHI".take 30 ++
        (if 30 < "abcdefghijklmnopqrstuvwxyz0123456789ABCDEFGHI".length
          then "..." else "") :=
  ⟨rfl, C2_amended_title_derivation ⟨0, "New Chat", []⟩
    "abcdefghijklmnopqrstuvwxyz0123456789ABCDEFGHI" rfl⟩

/-! ## Lemmas for the in-flight response claim -/

lemma sessions_foldl_switchSession (st : Store) (switches : List Nat) :
    (switches.foldl switchSession st).sessions = st.sessions := by
  induction switches generalizing st with
  | nil => rfl
  | cons a rest ih =>
    simp only [List.foldl_cons]
    rw [ih]
    rfl

lemma find?_updateFirstById (l : List ChatSession) (cid : Nat)
    (f : ChatSession → ChatSession) (hf : ∀ s, (f s).id = s.id) :
    (updateFirstById l cid f).find? (fun s => s.id == cid) =
      (l.find? (fun s => s.id == cid)).map f := by
  induction l with
  | nil => rfl
  | cons a rest ih =>
    simp only [updateFirstById]
    by_cases h : a.id = cid
    · rw [if_pos h, List.find?_cons_of_pos _ (by simp [hf, h]),
        List.find?_cons_of_pos _ (by simp [h])]
      rfl
    · rw [if_neg h, List.find?_cons_of_neg _ (by simp [h]),
        List.find?_cons_of_neg _ (by simp [h]), ih]

lemma mem_updateFirstById_of_ne {l : List ChatSession} {cid : Nat}
    {f : ChatSession → ChatSession} {s : ChatSession}
    (hs : s ∈ l) (hne : s.id ≠ cid) : s ∈ updateFirstById l cid f := by
  induction l with
  | nil => simp at hs
  | cons a rest ih =>
    simp only [updateFirstById]
    by_cases h : a.id = cid
    · rw [if_pos h]
      rcases List.mem_cons.mp hs with rfl | hmem
      · exact absurd h hne
      · exact List.mem_cons_of_mem _ hmem
    · rw [if_neg h]
      rcases List.mem_cons.mp hs with rfl | hmem
      · exact List.mem_cons_self _ _
      · exact List.mem_cons_of_mem _ (ih hmem)

lemma updateFirstById_updateFirstById (l : List ChatSession) (cid : Nat)
    (f g : ChatSession → ChatSession) (hf : ∀ s, (f s).id = s.id) :
    updateFirstById (updateFirstById l cid f) cid g =
      updateFirstById l cid (fun s => g (f s)) := by
  induction l with
  | nil => rfl
  | cons a rest ih =>
    by_cases h : a.id = cid
    · simp [updateFirstById, h, hf a]
    · simp [updateFirstById, h, ih]

/-- C9: when a `submit` command's LLM query is in flight while the current
session is switched (any number of times, to any ids), the response is still
appended to the message list of the session that was current when the query
was issued: that session's final message list is its prior messages plus the
user message plus the response, and every other session — in particular the
one current when the response arrives, when it differs — is left in the list
untouched. -/
theorem C9_response_targets_captured_session (st : Store) (text response : String)
    (switches : List Nat) (sess : ChatSession)
    (hcur : currentSession st = some sess) :
    ((submitWithSwitches st text response switches).sessions.find?
        (fun s => s.id == sess.id)).map (fun s => s.messages) =
      some ((pushMessageTitle sess text).messages ++ [⟨response, false⟩]) ∧
    ∀ s ∈ st.sessions, s.id ≠ sess.id →
      s ∈ (submitWithSwitches st text response switches).sessions := by
  have hpush_id : ∀ s : ChatSession, (pushMessageTitle s text).id = s.id :=
    fun s => rfl
  obtain ⟨cid, hcid, hfind⟩ : ∃ cid, st.currentSessionId = some cid ∧
      st.sessions.find? (fun s => s.id == cid) = some sess := by
    unfold currentSession at hcur
    cases hc : st.currentSessionId with
    | none => rw [hc] at hcur; cases hcur
    | some cid => rw [hc] at hcur; exact ⟨cid, rfl, hcur⟩
  have hsess_id : sess.id = cid := by
    have := List.find?_some hfind
    simpa using this
  subst hsess_id
  have hid : ∀ s : ChatSession,
      (appendBotMessage response (pushMessageTitle s text)).id = s.id :=
    fun s => rfl
  constructor
  · simp only [submitWithSwitches, hcur, appendResponseStep, submitUserStep]
    rw [sessions_foldl_switchSession, updateFirstById_updateFirstById _ _ _ _ hpush_id,
      find?_updateFirstById _ _ _ hid, hfind]
    rfl
  · intro s hs hne
    simp only [submitWithSwitches, hcur, appendResponseStep, submitUserStep]
    apply mem_updateFirstById_of_ne _ hne
    rw [sessions_foldl_switchSession]
    exact mem_updateFirstById_of_ne hs hne

/-- Witness for C9: two sessions, current session 0, a switch to session 1
while the query is in flight; the response lands on session 0. -/
theorem C9_response_targets_captured_session_witness :
    currentSession ⟨[⟨0, "A", []⟩, ⟨1, "B", []⟩], some 0, 2⟩ = some ⟨0, "A", []⟩ ∧
    ((submitWithSwitches ⟨[⟨0, "A", []⟩, ⟨1, "B", []⟩], some 0, 2⟩
        "hello" "world" [1]).sessions.find?
        (fun s => s.id == (ChatSession.mk 0 "A" []).id)).map (fun s => s.messages) =
      some ((pushMessageTitle ⟨0, "A", []⟩ "hello").messages ++ [⟨"world", false⟩]) :=
  ⟨by decide, (C9_response_targets_captured_session
    ⟨[⟨0, "A", []⟩, ⟨1, "B", []⟩], some 0, 2⟩ "hello" "world" [1]
    ⟨0, "A", []⟩ (by decide)).1⟩

end JupyterChatbot
